import Mathlib

/-!
Verification of the electrical load/provisioning calculator in `src/app.py`
(repository userslim/Project-and-Power-).

The Python module works with floats over closed-form arithmetic; the
embedding models all table values and zone inputs as exact rationals (ℚ)
and uses ℝ only where the source computes `3**0.5` (the square root of 3),
which is modelled exactly as `Real.sqrt 3`.  Machine-float rounding plays
no role in any property considered here.
-/

/-- One row of the `TECH_REFS` table:
`[Power W/m2, Light W/m2, Target Lux, Sqm/Socket, ISO, Cable, DB_Cap_sqm, mV_A_m]`. -/
structure TechRow where
  power_w_m2 : ℚ
  light_w_m2 : ℚ
  target_lux : ℚ
  sqm_per_socket : ℚ
  isolator : String
  cable : String
  db_cap_sqm : ℚ
  mv_a_m : ℚ

/-- The `TECH_REFS` dictionary (building type → reference row). -/
def TECH_REFS : List (String × TechRow) :=
  [("Residential", ⟨60, 8, 300, 15, "20A DP", "2.5mm² 3C", 500, 18.0⟩),
   ("Shopping Center", ⟨85, 15, 500, 20, "32A TP", "4.0mm² 5C", 800, 11.0⟩),
   ("Data Center", ⟨1200, 10, 300, 100, "63A TP", "16mm² 5C", 300, 2.8⟩),
   ("Polyclinic", ⟨65, 12, 500, 10, "20A DP", "2.5mm² 3C", 400, 18.0⟩),
   ("Hospital", ⟨110, 15, 600, 8, "32A TP", "6.0mm² 5C", 400, 7.3⟩),
   ("Hawker Center", ⟨180, 12, 300, 5, "32A SP", "4.0mm² 3C", 300, 11.0⟩),
   ("Market (Wet)", ⟨45, 10, 200, 25, "20A DP", "2.5mm² 3C", 600, 18.0⟩),
   ("Factory (Light)", ⟨85, 12, 400, 15, "32A TP", "4.0mm² 5C", 1000, 11.0⟩),
   ("Manufacturing", ⟨450, 15, 500, 30, "63A TP", "25mm² 5C", 1000, 1.8⟩),
   ("MRT Station (UG)", ⟨220, 18, 500, 50, "63A TP", "35mm² 5C", 400, 1.35⟩),
   ("MRT Station (AG)", ⟨120, 12, 400, 50, "32A TP", "10mm² 5C", 600, 4.4⟩),
   ("MSCP (Carpark)", ⟨15, 5, 150, 100, "32A TP", "6.0mm² 5C", 1200, 7.3⟩),
   ("Lift (Passenger)", ⟨0, 0, 0, 0, "32A TP", "6.0mm² 5C", 0, 0⟩),
   ("Escalator", ⟨0, 0, 0, 0, "63A TP", "16mm² 5C", 0, 0⟩)]

/-- The `CABLE_CURRENT` dictionary in its insertion (ascending cross-section)
order: cable size label → rated current-carrying capacity (A). -/
def CABLE_CURRENT : List (String × ℚ) :=
  [("1.5mm²", 16), ("2.5mm²", 22), ("4.0mm²", 30), ("6.0mm²", 38),
   ("10mm²", 52), ("16mm²", 70), ("25mm²", 94), ("35mm²", 115), ("50mm²", 140)]

/-- The `CABLE_MV_A_M` dictionary: cable size label → impedance (mV/A/m). -/
def CABLE_MV_A_M : List (String × ℚ) :=
  [("1.5mm²", 29.0), ("2.5mm²", 18.0), ("4.0mm²", 11.0), ("6.0mm²", 7.3),
   ("10mm²", 4.4), ("16mm²", 2.8), ("25mm²", 1.8), ("35mm²", 1.35), ("50mm²", 1.0)]

/-- Numeric cross-sectional area read off a cable size label (mm²), used to
state that the cable table is scanned in ascending cross-section order. -/
def label_mm2 : String → ℚ
  | "1.5mm²" => 1.5
  | "2.5mm²" => 2.5
  | "4.0mm²" => 4
  | "6.0mm²" => 6
  | "10mm²" => 10
  | "16mm²" => 16
  | "25mm²" => 25
  | "35mm²" => 35
  | "50mm²" => 50
  | _ => 0

/-- `TRUNKING_SIZES`: standard trunking sizes (width × height in mm), in the
order the source lists them. -/
def TRUNKING_SIZES : List (ℕ × ℕ) :=
  [(50, 50), (75, 50), (100, 50), (100, 75), (150, 75), (200, 100), (300, 150)]

/-- One entry of the session `fixture_list`: `{"wattage": w, "qty": q}`. -/
structure Fixture where
  wattage : ℚ
  qty : ℤ
deriving DecidableEq

/-- The `lux_params` dictionary passed to `calculate_zone`; each key is
optional and read with a default via `.get` in the source. -/
structure LuxParams where
  lux : Option ℚ
  lumens_per_fixture : Option ℚ
  mf : Option ℚ
  uf : Option ℚ

/-- The dictionary returned by `calculate_zone`. -/
structure ZoneResult where
  power_w_m2 : ℚ
  light_w_m2 : ℚ
  total_power_w : ℚ
  total_light_w : ℚ
  total_power_kw : ℚ
  num_sockets : ℤ
  isolator : String
  cable : String
  num_lights : ℤ
  num_switches : ℤ
  num_circuits : ℤ

/-- `calculate_lighting_from_fixtures`: accumulates total wattage and total
quantity over the fixture list (a left fold, as the Python `for` loop does). -/
def calculate_lighting_from_fixtures (fixture_list : List Fixture) : ℚ × ℤ :=
  fixture_list.foldl (fun acc f => (acc.1 + f.wattage * (f.qty : ℚ), acc.2 + f.qty)) (0, 0)

/-- The lighting branch of `calculate_zone` (lines 99-117 of `src/app.py`):
returns `(total_light_w, num_lights, light_w_m2_used)`.  The custom-fixtures
path is taken when `use_custom_fixtures` is set and the fixture list is
non-empty (Python list truthiness); otherwise the method string selects the
load-based or the lux-based computation. -/
def zone_lighting (area : ℚ) (tech : TechRow) (light_method : String)
    (light_wattage_single : ℚ) (use_custom_fixtures : Bool)
    (fixture_list : List Fixture) (override_light_w_m2 : Option ℚ)
    (lux_params : LuxParams) : ℚ × ℤ × ℚ :=
  if use_custom_fixtures = true ∧ fixture_list ≠ [] then
    let r := calculate_lighting_from_fixtures fixture_list
    (r.1, r.2, if 0 < area then r.1 / area else 0)
  else if light_method = "Load-based (W/m²)" then
    let light_w_m2 := override_light_w_m2.getD tech.light_w_m2
    let total_light_w := area * light_w_m2
    let num_lights : ℤ :=
      if 0 < light_wattage_single then ⌈total_light_w / light_wattage_single⌉ else 0
    (total_light_w, num_lights, light_w_m2)
  else
    let lux := lux_params.lux.getD tech.target_lux
    let lumens_per_fixture := lux_params.lumens_per_fixture.getD 3200
    let mf := lux_params.mf.getD 0.8
    let uf := lux_params.uf.getD 0.7
    let required_lumens := lux * area
    let num_lights : ℤ := ⌈required_lumens / (lumens_per_fixture * mf * uf)⌉
    let total_light_w := (num_lights : ℚ) * light_wattage_single
    (total_light_w, num_lights, if 0 < area then total_light_w / area else 0)

/-- `calculate_zone` (lines 91-135 of `src/app.py`). -/
def calculate_zone (area : ℚ) (tech : TechRow) (light_method : String)
    (light_wattage_single : ℚ) (use_custom_fixtures : Bool)
    (fixture_list : List Fixture) (override_light_w_m2 : Option ℚ)
    (lux_params : LuxParams) : ZoneResult :=
  let total_power := area * tech.power_w_m2
  let total_power_kw := total_power / 1000
  let lighting := zone_lighting area tech light_method light_wattage_single
    use_custom_fixtures fixture_list override_light_w_m2 lux_params
  let num_sockets : ℤ := if 0 < tech.sqm_per_socket then ⌈area / tech.sqm_per_socket⌉ else 0
  let num_switches : ℤ := max 1 ⌈area / 30⌉
  { power_w_m2 := tech.power_w_m2
    light_w_m2 := lighting.2.2
    total_power_w := total_power
    total_light_w := lighting.1
    total_power_kw := total_power_kw
    num_sockets := num_sockets
    isolator := tech.isolator
    cable := tech.cable
    num_lights := lighting.2.1
    num_switches := num_switches
    num_circuits := num_sockets + lighting.2.1 }

/-- Division-by-zero audit of `calculate_zone`: `true` exactly when the
executed path performs a division whose denominator is zero.  The three
divisions guarded in the source (`area / sqm_per_socket` behind
`sqm_per_socket > 0`, `total_light_w / light_wattage_single` behind
`light_wattage_single > 0`, and `total_light_w / area` behind `area > 0`)
can never divide by zero; the only unguarded division is
`required_lumens / (lumens_per_fixture * mf * uf)` on the lux-based path. -/
def zone_div_by_zero (light_method : String) (use_custom_fixtures : Bool)
    (fixture_list : List Fixture) (lux_params : LuxParams) : Bool :=
  if use_custom_fixtures = true ∧ fixture_list ≠ [] then false
  else if light_method = "Load-based (W/m²)" then false
  else decide (lux_params.lumens_per_fixture.getD 3200 * lux_params.mf.getD 0.8 *
    lux_params.uf.getD 0.7 = 0)

/-- Python `round(x, 2)` idealised over ℚ: round `100*x` to the nearest
integer, ties to even, and divide by 100. -/
def pyround2 (x : ℚ) : ℚ :=
  let y := x * 100
  let n : ℤ :=
    if y - ⌊y⌋ = 1/2 then (if 2 ∣ ⌊y⌋ then ⌊y⌋ else ⌊y⌋ + 1) else ⌊y + 1/2⌋
  (n : ℚ) / 100

/-- One row of the session `project` list (the `zone_entry` dictionaries
appended at lines 370-386, 390-406 and 427-445 of `src/app.py`). -/
structure ZoneEntry where
  description : String
  type : String
  area_m2 : ℚ
  power_w_m2 : ℚ
  light_w_m2 : ℚ
  total_power_kw : ℚ
  sockets : ℤ
  isolator : String
  breaker_type : String
  cable : String
  lights : ℤ
  light_switches : ℤ
  num_circuits : ℤ
  distance_m : ℚ
  db_count : ℤ

/-- The `zone_entry` dictionary built at lines 370-386 of `src/app.py` from a
calc result.  `light_w_m2_used` and `num_lights` are the variables set at
lines 354-355 (fixed-load path) or 367-368 (calculated path); `equipment_power`
feeds `total_power_kw` when the type string is `"Lift"` or `"Escalator"`. -/
def zone_entry (z_name z_type : String) (z_area : ℚ) (calcres : ZoneResult)
    (light_w_m2_used : ℚ) (num_lights : ℤ) (breaker_type : String)
    (equipment_power : ℚ) (z_dist : ℚ) (z_db : ℤ) : ZoneEntry :=
  { description := z_name
    type := z_type
    area_m2 := z_area
    power_w_m2 := if z_type = "Lift" ∨ z_type = "Escalator" then 0 else calcres.power_w_m2
    light_w_m2 := light_w_m2_used
    total_power_kw := pyround2
      (if z_type = "Lift" ∨ z_type = "Escalator" then equipment_power else calcres.total_power_kw)
    sockets := calcres.num_sockets
    isolator := calcres.isolator
    breaker_type := breaker_type
    cable := calcres.cable
    lights := num_lights
    light_switches := calcres.num_switches
    num_circuits := calcres.num_circuits
    distance_m := z_dist
    db_count := z_db }

/-- The hand-built calc dictionary for fixed-load types (lines 342-353 of
`src/app.py`).  The source dictionary carries no `total_power_w` or
`total_light_w` keys; both fields are set to 0 here and are read nowhere
downstream. -/
def fixed_load_calc (equipment_power : ℚ) (tech : TechRow) : ZoneResult :=
  { power_w_m2 := 0
    light_w_m2 := 0
    total_power_w := 0
    total_light_w := 0
    total_power_kw := equipment_power
    num_sockets := 0
    isolator := tech.isolator
    cable := tech.cable
    num_lights := 0
    num_switches := 0
    num_circuits := 1 }

/-- The project row appended for a Lift/Escalator zone: the fixed-load calc
dictionary of lines 342-353 fed through the `zone_entry` construction, with
`z_area = 0`, `light_w_m2_used = 0` and `num_lights = 0` (lines 251, 354-355). -/
def fixed_zone_entry (z_name z_type : String) (equipment_power : ℚ) (tech : TechRow)
    (breaker_type : String) (z_dist : ℚ) (z_db : ℤ) : ZoneEntry :=
  zone_entry z_name z_type 0 (fixed_load_calc equipment_power tech) 0 0 breaker_type
    equipment_power z_dist z_db

/-- The EV-charging project row appended for an MSCP zone with a positive EV
reserve (lines 390-406 of `src/app.py`). -/
def ev_zone_entry (z_name : String) (ev_load_kw : ℚ) (z_dist : ℚ) : ZoneEntry :=
  { description := z_name ++ " - EV Charging"
    type := "EV Charging"
    area_m2 := 0
    power_w_m2 := 0
    light_w_m2 := 0
    total_power_kw := pyround2 ev_load_kw
    sockets := 0
    isolator := "32A TP"
    breaker_type := "RCBO"
    cable := "6.0mm² 5C"
    lights := 0
    light_switches := 0
    num_circuits := ⌈ev_load_kw / 7.4⌉
    distance_m := z_dist
    db_count := 1 }

/-- Result of `estimate_panels`. -/
structure PanelCounts where
  msb : ℤ
  db : ℤ
  sub : ℤ
deriving DecidableEq

/-- `estimate_panels` (lines 137-143 of `src/app.py`), over the project rows. -/
def estimate_panels (project : List ZoneEntry) : PanelCounts :=
  if project.isEmpty then { msb := 1, db := 0, sub := 0 }
  else
    let total_circuits : ℤ := (project.map (fun r => r.num_circuits)).sum
    { msb := 1
      db := ⌈(total_circuits : ℚ) / 18⌉
      sub := (project.countP (fun r => decide (50 < r.total_power_kw)) : ℤ) }

/-- `recommend_trunking` (lines 159-164 of `src/app.py`): the `for` loop with
an early `return` is the first entry of the size list whose area meets the
required area. -/
def recommend_trunking (total_cable_area_mm2 : ℚ) : String × Option ℚ × ℚ :=
  let required_area := total_cable_area_mm2 / 0.45
  match TRUNKING_SIZES.find? (fun p => decide (required_area ≤ ((p.1 * p.2 : ℕ) : ℚ))) with
  | some p => (toString p.1 ++ " x " ++ toString p.2 ++ " mm", some ((p.1 * p.2 : ℕ) : ℚ),
      required_area)
  | none => (">300x150 mm (custom)", none, required_area)

/-- The Python expression `3**0.5`, modelled exactly. -/
noncomputable def sqrt3 : ℝ := Real.sqrt 3

/-- The voltage drop computed inside `auto_cable_size` for a given cable size
label: `mv * current * length / 1000` for single phase, multiplied by `3**0.5`
otherwise (lines 150-154 of `src/app.py`). -/
noncomputable def cable_vd (current length : ℝ) (phase : ℤ) (size : String) : ℝ :=
  let mv : ℚ := (CABLE_MV_A_M.lookup size).getD 0
  if phase = 1 then (mv : ℝ) * current * length / 1000
  else (mv : ℝ) * current * length * sqrt3 / 1000

/-- A cable table entry qualifies in `auto_cable_size` when its rated current
meets the requested current and its voltage drop stays within
`voltage * max_vd_pct / 100`. -/
noncomputable def cable_ok (current length voltage : ℝ) (phase : ℤ) (max_vd_pct : ℝ)
    (p : String × ℚ) : Prop :=
  current ≤ (p.2 : ℝ) ∧ cable_vd current length phase p.1 ≤ voltage * max_vd_pct / 100

open scoped Classical in
/-- `auto_cable_size` (lines 145-157 of `src/app.py`): collect the suitable
table entries in order and return the first, or the custom sentinel when the
list is empty. -/
noncomputable def auto_cable_size (current length voltage : ℝ) (phase : ℤ)
    (max_vd_pct : ℝ) : String :=
  let suitable := CABLE_CURRENT.filter
    (fun p => decide (cable_ok current length voltage phase max_vd_pct p))
  match suitable.head? with
  | some p => p.1
  | none => ">50mm² (custom)"

/-- Python `cable_str.split()[0]`: the characters before the first space. -/
def base_cable_size (cable_str : String) : String :=
  String.mk (cable_str.toList.takeWhile (fun c => c ≠ ' '))

open scoped Classical in
/-- The status string assigned at line 551 of `src/app.py`. -/
noncomputable def vd_status (vd_pct : ℝ) : String :=
  if vd_pct ≤ 4 then "✅ Pass" else "⚠️ Resize"

/-- The voltage-drop fields of a per-zone engineering report row. -/
structure VDResult where
  vd_pct : ℝ
  status : String

open scoped Classical in
/-- The voltage-drop computation of the per-zone engineering report
(lines 539-551 of `src/app.py`): `vd_pct` stays 0 and the status stays
`"N/A"` unless the area and distance are positive, the base cable size is in
the impedance table, and the impedance is positive; then
`ib = total_kw * 1000 / (1.732 * 400 * 0.85)` (the raw connected load and a
`1.732` literal) and `vd = mv * ib * dist * 3**0.5 / 1000`,
`vd_pct = vd / 400 * 100`. -/
noncomputable def report_vd (area_m2 total_power_kw distance_m : ℚ)
    (cable_str : String) : VDResult :=
  let mv : ℚ := (CABLE_MV_A_M.lookup (base_cable_size cable_str)).getD 0
  if 0 < area_m2 ∧ (CABLE_MV_A_M.lookup (base_cable_size cable_str)).isSome ∧
      0 < distance_m then
    if 0 < mv then
      let ib : ℝ := ((total_power_kw : ℝ) * 1000) / (1.732 * 400 * 0.85)
      let vd : ℝ := (mv : ℝ) * ib * (distance_m : ℝ) * sqrt3 / 1000
      let vd_pct : ℝ := vd / 400 * 100
      ⟨vd_pct, vd_status vd_pct⟩
    else ⟨0, "N/A"⟩
  else ⟨0, "N/A"⟩

/-- Modelled from the spec: the voltage-drop percentage claimed in the
specification, `voltageDropPct = (mv * Ib * distance * √3 / 1000) / 400 * 100`
with `Ib = maxDemandKw * 1000 / (√3 * 400 * 0.85)` and
`maxDemandKw = totalPowerKw * 0.8`.  Kept for comparison with `report_vd`. -/
noncomputable def spec_vd_pct (totalPowerKw mv distance : ℚ) : ℝ :=
  let maxDemandKw : ℝ := (totalPowerKw : ℝ) * 0.8
  let ib : ℝ := maxDemandKw * 1000 / (sqrt3 * 400 * 0.85)
  ((mv : ℝ) * ib * (distance : ℝ) * sqrt3 / 1000) / 400 * 100

/-- A residential reference row of `TECH_REFS`, for concrete instantiations. -/
def residentialRow : TechRow := ⟨60, 8, 300, 15, "20A DP", "2.5mm² 3C", 500, 18⟩

/-- The `TECH_REFS` row for `"Lift (Passenger)"`, for concrete instantiations. -/
def liftRow : TechRow := ⟨0, 0, 0, 0, "32A TP", "6.0mm² 5C", 0, 0⟩

/-- The empty `lux_params` dictionary. -/
def noLux : LuxParams := ⟨none, none, none, none⟩

/-- A sample project row, used to instantiate universally quantified
statements at a concrete input. -/
def sampleEntry : ZoneEntry :=
  { description := "Level 1"
    type := "Residential"
    area_m2 := 100
    power_w_m2 := 60
    light_w_m2 := 8
    total_power_kw := 6
    sockets := 7
    isolator := "20A DP"
    breaker_type := "MCB"
    cable := "2.5mm² 3C"
    lights := 54
    light_switches := 4
    num_circuits := 61
    distance_m := 30
    db_count := 1 }

/-! ### General helper lemmas -/

/-- A successful association-list lookup witnesses membership of the pair. -/
theorem lookup_mem {α β : Type} [BEq α] [LawfulBEq α] :
    ∀ (l : List (α × β)) (a : α) (b : β), l.lookup a = some b → (a, b) ∈ l := by
  intro l
  induction l with
  | nil => intro a b h; simp [List.lookup] at h
  | cons p t ih =>
    intro a b h
    obtain ⟨k, v⟩ := p
    simp only [List.lookup] at h
    cases hk : (a == k) with
    | true =>
      rw [hk] at h
      simp only [Option.some.injEq] at h
      subst h
      have hak : a = k := eq_of_beq hk
      subst hak
      exact List.mem_cons_self _ _
    | false =>
      rw [hk] at h
      exact List.mem_cons_of_mem _ (ih a b h)

/-- Every impedance value in the `CABLE_MV_A_M` table is positive. -/
theorem cable_mv_pos {s : String} {mv : ℚ} (h : CABLE_MV_A_M.lookup s = some mv) :
    0 < mv := by
  have hmem : (s, mv) ∈ CABLE_MV_A_M := lookup_mem _ _ _ h
  simp only [CABLE_MV_A_M, List.mem_cons, List.not_mem_nil, or_false] at hmem
  rcases hmem with h1|h1|h1|h1|h1|h1|h1|h1|h1 <;>
    (injection h1 with h2 h3; subst h3; norm_num)

/-- Characterisation of the head of a filtered list: either nothing matches,
or the list splits at the first matching element. -/
theorem filter_head_first {α : Type} (p : α → Bool) :
    ∀ l : List α,
      ((∀ x ∈ l, p x = false) ∧ (l.filter p).head? = none) ∨
      ∃ l1 x l2, l = l1 ++ x :: l2 ∧ p x = true ∧ (∀ y ∈ l1, p y = false) ∧
        (l.filter p).head? = some x := by
  intro l
  induction l with
  | nil => exact Or.inl ⟨by simp, rfl⟩
  | cons a t ih =>
    cases hpa : p a with
    | true =>
      exact Or.inr ⟨[], a, t, rfl, hpa, by simp, by simp [List.filter_cons, hpa]⟩
    | false =>
      rcases ih with ⟨h1, h2⟩ | ⟨l1, x, l2, heq, hx, hpre, hh⟩
      · refine Or.inl ⟨?_, by simp [List.filter_cons, hpa, h2]⟩
        intro y hy
        rcases List.mem_cons.mp hy with rfl | hy2
        · exact hpa
        · exact h1 y hy2
      · refine Or.inr ⟨a :: l1, x, l2, by rw [heq]; rfl, hx, ?_,
          by simp [List.filter_cons, hpa, hh]⟩
        intro y hy
        rcases List.mem_cons.mp hy with rfl | hy2
        · exact hpa
        · exact hpre y hy2

/-- Characterisation of `List.find?`: either nothing matches, or the list
splits at the first matching element, which is returned. -/
theorem find_first {α : Type} (p : α → Bool) :
    ∀ l : List α,
      ((∀ x ∈ l, p x = false) ∧ l.find? p = none) ∨
      ∃ l1 x l2, l = l1 ++ x :: l2 ∧ p x = true ∧ (∀ y ∈ l1, p y = false) ∧
        l.find? p = some x := by
  intro l
  induction l with
  | nil => exact Or.inl ⟨by simp, rfl⟩
  | cons a t ih =>
    cases hpa : p a with
    | true =>
      exact Or.inr ⟨[], a, t, rfl, hpa, by simp, by simp [List.find?_cons, hpa]⟩
    | false =>
      rcases ih with ⟨h1, h2⟩ | ⟨l1, x, l2, heq, hx, hpre, hh⟩
      · refine Or.inl ⟨?_, by simp [List.find?_cons, hpa, h2]⟩
        intro y hy
        rcases List.mem_cons.mp hy with rfl | hy2
        · exact hpa
        · exact h1 y hy2
      · refine Or.inr ⟨a :: l1, x, l2, by rw [heq]; rfl, hx, ?_,
          by simp [List.find?_cons, hpa, hh]⟩
        intro y hy
        rcases List.mem_cons.mp hy with rfl | hy2
        · exact hpa
        · exact hpre y hy2

/-- The accumulating loop of `calculate_lighting_from_fixtures` computes the
sum of `wattage * qty` and the sum of `qty` over the fixture list. -/
theorem fixtures_sum (fl : List Fixture) :
    calculate_lighting_from_fixtures fl
      = ((fl.map (fun f => f.wattage * (f.qty : ℚ))).sum, (fl.map (fun f => f.qty)).sum) := by
  suffices h : ∀ acc : ℚ × ℤ,
      fl.foldl (fun acc f => (acc.1 + f.wattage * (f.qty : ℚ), acc.2 + f.qty)) acc
        = (acc.1 + (fl.map (fun f => f.wattage * (f.qty : ℚ))).sum,
           acc.2 + (fl.map (fun f => f.qty)).sum) by
    have h0 := h (0, 0)
    simpa [calculate_lighting_from_fixtures] using h0
  induction fl with
  | nil => intro acc; simp
  | cons f t ih =>
    intro acc
    simp only [List.foldl_cons, List.map_cons, List.sum_cons, ih]
    simp [Prod.ext_iff, add_assoc]

/-! ### Claim theorems -/

/-- C2 (amended): every `ZoneResult` computed by `calculate_zone` — and the
project row built from it — satisfies `num_circuits = num_sockets + num_lights`;
the hand-built fixed-load (Lift/Escalator) rows instead carry
`num_circuits = 1` with `sockets = lights = 0`, and the EV-charging rows carry
`num_circuits = ceil(ev_load_kw / 7.4)` with `sockets = lights = 0`. -/
theorem C2_circuits_invariant (area : ℚ) (tech : TechRow) (lm : String) (lws : ℚ)
    (ucf : Bool) (fl : List Fixture) (olw : Option ℚ) (lp : LuxParams)
    (zn zt bt : String) (ep ev zdist : ℚ) (zdb : ℤ) :
    (calculate_zone area tech lm lws ucf fl olw lp).num_circuits
        = (calculate_zone area tech lm lws ucf fl olw lp).num_sockets
          + (calculate_zone area tech lm lws ucf fl olw lp).num_lights ∧
    (zone_entry zn zt area (calculate_zone area tech lm lws ucf fl olw lp)
          (calculate_zone area tech lm lws ucf fl olw lp).light_w_m2
          (calculate_zone area tech lm lws ucf fl olw lp).num_lights bt ep zdist zdb).num_circuits
        = (zone_entry zn zt area (calculate_zone area tech lm lws ucf fl olw lp)
            (calculate_zone area tech lm lws ucf fl olw lp).light_w_m2
            (calculate_zone area tech lm lws ucf fl olw lp).num_lights bt ep zdist zdb).sockets
          + (zone_entry zn zt area (calculate_zone area tech lm lws ucf fl olw lp)
              (calculate_zone area tech lm lws ucf fl olw lp).light_w_m2
              (calculate_zone area tech lm lws ucf fl olw lp).num_lights bt ep zdist zdb).lights ∧
    ((fixed_zone_entry zn zt ep tech bt zdist zdb).sockets = 0 ∧
      (fixed_zone_entry zn zt ep tech bt zdist zdb).lights = 0 ∧
      (fixed_zone_entry zn zt ep tech bt zdist zdb).num_circuits = 1) ∧
    ((ev_zone_entry zn ev zdist).sockets = 0 ∧
      (ev_zone_entry zn ev zdist).lights = 0 ∧
      (ev_zone_entry zn ev zdist).num_circuits = ⌈ev / 7.4⌉) :=
  ⟨rfl, rfl, ⟨rfl, rfl, rfl⟩, ⟨rfl, rfl, rfl⟩⟩

/-- C2 counterexample: the project row built for a 15 kW passenger lift has
`num_circuits = 1` but `sockets + lights = 0`, so the claimed invariant
`circuits = sockets + lights` fails on fixed-load entries. -/
theorem C2_counterexample :
    ¬ ((fixed_zone_entry "Lift 1" "Lift (Passenger)" 15 liftRow "MCCB" 30 1).num_circuits
        = (fixed_zone_entry "Lift 1" "Lift (Passenger)" 15 liftRow "MCCB" 30 1).sockets
          + (fixed_zone_entry "Lift 1" "Lift (Passenger)" 15 liftRow "MCCB" 30 1).lights) := by
  decide

/-- C4: the per-zone report marks a voltage-drop percentage of exactly 4.00
as `Pass`, and any strictly greater value (such as 4.01) as `Resize`. -/
theorem C4_vd_boundary :
    vd_status 4 = "✅ Pass" ∧ ∀ x : ℝ, 4 < x → vd_status x = "⚠️ Resize" := by
  constructor
  · unfold vd_status
    rw [if_pos le_rfl]
  · intro x hx
    unfold vd_status
    rw [if_neg (not_le.mpr hx)]

/-- C4 witness: the boundary theorem applied at the concrete value 4.01. -/
theorem C4_vd_boundary_witness : vd_status (4.01 : ℝ) = "⚠️ Resize" :=
  C4_vd_boundary.2 4.01 (by norm_num)

/-- C5: `estimate_panels` returns `{msb := 1, db := 0, sub := 0}` on the empty
project; on a non-empty project it returns one main switchboard, a
distribution-board count of `ceil(sum of circuits / 18)`, and a sub-board
count equal to the number of zones whose total power strictly exceeds 50 kW. -/
theorem C5_estimate_panels_spec (project : List ZoneEntry) (h : project ≠ []) :
    estimate_panels [] = { msb := 1, db := 0, sub := 0 } ∧
    (estimate_panels project).msb = 1 ∧
    (estimate_panels project).db
        = ⌈(((project.map (fun r => r.num_circuits)).sum : ℚ) / 18)⌉ ∧
    (estimate_panels project).sub
        = ((project.filter (fun r => decide (50 < r.total_power_kw))).length : ℤ) := by
  have hne : project.isEmpty = false := by
    cases project with
    | nil => exact absurd rfl h
    | cons a t => rfl
  have hval : estimate_panels project
      = { msb := 1,
          db := ⌈(((project.map (fun r => r.num_circuits)).sum : ℚ) / 18)⌉,
          sub := (project.countP (fun r => decide (50 < r.total_power_kw)) : ℤ) } := by
    unfold estimate_panels
    rw [hne]
    rw [if_neg Bool.false_ne_true]
    push_cast [List.map_map]
    rfl
  refine ⟨rfl, by rw [hval], by rw [hval], ?_⟩
  rw [hval]
  simp [List.countP_eq_length_filter]

/-- C5 witness: the panel-count theorem applied to a concrete one-row
project. -/
theorem C5_estimate_panels_witness :
    estimate_panels [] = { msb := 1, db := 0, sub := 0 } ∧
    (estimate_panels [sampleEntry]).msb = 1 ∧
    (estimate_panels [sampleEntry]).db
        = ⌈((([sampleEntry].map (fun r => r.num_circuits)).sum : ℚ) / 18)⌉ ∧
    (estimate_panels [sampleEntry]).sub
        = (([sampleEntry].filter (fun r => decide (50 < r.total_power_kw))).length : ℤ) :=
  C5_estimate_panels_spec [sampleEntry] (List.cons_ne_nil _ _)

/-- C7: `calculate_zone` reports `total_power_kw = area * powerDensity / 1000`
exactly, and total power is monotonically non-decreasing in the area for a
fixed building-type row with non-negative power density. -/
theorem C7_total_power (area a1 a2 : ℚ) (tech : TechRow) (lm : String) (lws : ℚ)
    (ucf : Bool) (fl : List Fixture) (olw : Option ℚ) (lp : LuxParams)
    (harea : 0 ≤ area) (hd : 0 ≤ tech.power_w_m2) (h12 : a1 ≤ a2) :
    (calculate_zone area tech lm lws ucf fl olw lp).total_power_kw
        = area * tech.power_w_m2 / 1000 ∧
    (calculate_zone a1 tech lm lws ucf fl olw lp).total_power_kw
        ≤ (calculate_zone a2 tech lm lws ucf fl olw lp).total_power_kw := by
  refine ⟨rfl, ?_⟩
  show a1 * tech.power_w_m2 / 1000 ≤ a2 * tech.power_w_m2 / 1000
  have h := mul_le_mul_of_nonneg_right h12 hd
  linarith

/-- C7 witness: the total-power theorem applied to the residential row at
areas 50 and 100. -/
theorem C7_total_power_witness :
    (calculate_zone 100 residentialRow "Load-based (W/m²)" 15 false [] none noLux).total_power_kw
        = 100 * residentialRow.power_w_m2 / 1000 ∧
    (calculate_zone 50 residentialRow "Load-based (W/m²)" 15 false [] none noLux).total_power_kw
        ≤ (calculate_zone 100 residentialRow "Load-based (W/m²)" 15 false [] none noLux).total_power_kw :=
  C7_total_power 100 50 100 residentialRow "Load-based (W/m²)" 15 false [] none noLux
    (by norm_num) (by norm_num [residentialRow]) (by norm_num)

/-- C8: under the lux-based method without custom fixtures, `calculate_zone`
computes `num_lights = ceil(lux * area / (lumensPerFixture * mf * uf))` and
`total_light_w = num_lights * fixtureWattage`, with `lux` defaulting to the
building-type row's target lux, `lumensPerFixture` to 3200, `mf` to 0.8 and
`uf` to 0.7 when unset. -/
theorem C8_lux_lighting (area : ℚ) (tech : TechRow) (lws : ℚ) (fl : List Fixture)
    (olw : Option ℚ) (lp : LuxParams) :
    (calculate_zone area tech "Lux-based (lumens)" lws false fl olw lp).num_lights
        = ⌈lp.lux.getD tech.target_lux * area /
            (lp.lumens_per_fixture.getD 3200 * lp.mf.getD 0.8 * lp.uf.getD 0.7)⌉ ∧
    (calculate_zone area tech "Lux-based (lumens)" lws false fl olw lp).total_light_w
        = ((calculate_zone area tech "Lux-based (lumens)" lws false fl olw lp).num_lights : ℚ)
          * lws := by
  constructor <;> simp +decide [calculate_zone, zone_lighting]

/-- C10: with custom fixtures enabled and a non-empty fixture list,
`calculate_zone` takes the light count from the summed fixture quantities and
the light wattage from the summed `wattage * qty`, reports a lighting density
of `total_light_w / area` (0 when the area is not positive), and ignores the
lighting method, the density override, the single-fixture wattage and the lux
parameters entirely. -/
theorem C10_custom_fixtures (area : ℚ) (tech : TechRow) (lm lm2 : String)
    (lws lws2 : ℚ) (fl : List Fixture) (olw olw2 : Option ℚ) (lp lp2 : LuxParams)
    (h : fl ≠ []) :
    (calculate_zone area tech lm lws true fl olw lp).num_lights
        = (fl.map (fun f => f.qty)).sum ∧
    (calculate_zone area tech lm lws true fl olw lp).total_light_w
        = (fl.map (fun f => f.wattage * (f.qty : ℚ))).sum ∧
    (calculate_zone area tech lm lws true fl olw lp).light_w_m2
        = (if 0 < area then (fl.map (fun f => f.wattage * (f.qty : ℚ))).sum / area else 0) ∧
    calculate_zone area tech lm lws true fl olw lp
        = calculate_zone area tech lm2 lws2 true fl olw2 lp2 := by
  have hz : ∀ (lm' : String) (lws' : ℚ) (olw' : Option ℚ) (lp' : LuxParams),
      zone_lighting area tech lm' lws' true fl olw' lp'
        = ((fl.map (fun f => f.wattage * (f.qty : ℚ))).sum,
           (fl.map (fun f => f.qty)).sum,
           if 0 < area then (fl.map (fun f => f.wattage * (f.qty : ℚ))).sum / area else 0) := by
    intro lm' lws' olw' lp'
    unfold zone_lighting
    rw [if_pos ⟨rfl, h⟩, fixtures_sum]
  refine ⟨?_, ?_, ?_, ?_⟩ <;> unfold calculate_zone <;> (rw [hz]; try rw [hz])

/-- C10 witness: the custom-fixtures theorem applied to a concrete fixture
list of two 15 W fixtures, with differing method/override/wattage/lux
arguments on the two sides of the invariance conjunct. -/
theorem C10_custom_fixtures_witness :
    (calculate_zone 100 residentialRow "Load-based (W/m²)" 15 true [⟨15, 2⟩] none noLux).num_lights
        = (([⟨15, 2⟩] : List Fixture).map (fun f => f.qty)).sum ∧
    (calculate_zone 100 residentialRow "Load-based (W/m²)" 15 true [⟨15, 2⟩] none noLux).total_light_w
        = (([⟨15, 2⟩] : List Fixture).map (fun f => f.wattage * (f.qty : ℚ))).sum ∧
    (calculate_zone 100 residentialRow "Load-based (W/m²)" 15 true [⟨15, 2⟩] none noLux).light_w_m2
        = (if 0 < (100 : ℚ) then
            (([⟨15, 2⟩] : List Fixture).map (fun f => f.wattage * (f.qty : ℚ))).sum / 100 else 0) ∧
    calculate_zone 100 residentialRow "Load-based (W/m²)" 15 true [⟨15, 2⟩] none noLux
        = calculate_zone 100 residentialRow "Lux-based (lumens)" 20 true [⟨15, 2⟩]
            (some 12) ⟨some 500, some 3000, some 1, some 1⟩ :=
  C10_custom_fixtures 100 residentialRow "Load-based (W/m²)" "Lux-based (lumens)" 15 20
    [⟨15, 2⟩] none (some 12) noLux ⟨some 500, some 3000, some 1, some 1⟩
    (List.cons_ne_nil _ _)

/-- C6 (amended): the three divisions the spec names are guarded —
`num_sockets` is 0 when `sqm_per_socket ≤ 0`, the load-based light count is 0
when the fixture wattage is ≤ 0, and the derived lighting density is 0 when
the area is 0 — but `calculate_zone` is not free of division by zero: the
lux-based fixture-count division is unguarded and divides by zero exactly
when the effective `lumens_per_fixture * mf * uf` is zero. -/
theorem C6_division_guards (area : ℚ) (tech : TechRow) (lm : String) (lws : ℚ)
    (ucf : Bool) (fl : List Fixture) (olw : Option ℚ) (lp : LuxParams) :
    (tech.sqm_per_socket ≤ 0 →
      (calculate_zone area tech lm lws ucf fl olw lp).num_sockets = 0) ∧
    (¬ (ucf = true ∧ fl ≠ []) → lm = "Load-based (W/m²)" → lws ≤ 0 →
      (calculate_zone area tech lm lws ucf fl olw lp).num_lights = 0) ∧
    (ucf = true → fl ≠ [] → area = 0 →
      (calculate_zone area tech lm lws ucf fl olw lp).light_w_m2 = 0) ∧
    (¬ (ucf = true ∧ fl ≠ []) → lm ≠ "Load-based (W/m²)" → area = 0 →
      (calculate_zone area tech lm lws ucf fl olw lp).light_w_m2 = 0) ∧
    (zone_div_by_zero lm ucf fl lp = true ↔
      ¬ (ucf = true ∧ fl ≠ []) ∧ lm ≠ "Load-based (W/m²)" ∧
        lp.lumens_per_fixture.getD 3200 * lp.mf.getD 0.8 * lp.uf.getD 0.7 = 0) := by
  refine ⟨?_, ?_, ?_, ?_, ?_⟩
  · intro hsq
    show (if 0 < tech.sqm_per_socket then ⌈area / tech.sqm_per_socket⌉ else 0) = 0
    rw [if_neg (not_lt.mpr hsq)]
  · intro hnc hlm hw
    show (zone_lighting area tech lm lws ucf fl olw lp).2.1 = 0
    unfold zone_lighting
    rw [if_neg hnc, if_pos hlm]
    simp only
    rw [if_neg (not_lt.mpr hw)]
  · intro huc hfl ha
    show (zone_lighting area tech lm lws ucf fl olw lp).2.2 = 0
    unfold zone_lighting
    rw [if_pos ⟨huc, hfl⟩]
    simp only
    rw [ha, if_neg (lt_irrefl 0)]
  · intro hnc hlm ha
    show (zone_lighting area tech lm lws ucf fl olw lp).2.2 = 0
    unfold zone_lighting
    rw [if_neg hnc, if_neg hlm]
    simp only
    rw [ha, if_neg (lt_irrefl 0)]
  · unfold zone_div_by_zero
    by_cases hc : ucf = true ∧ fl ≠ []
    · rw [if_pos hc]
      simp [hc]
    · rw [if_neg hc]
      by_cases hlm : lm = "Load-based (W/m²)"
      · rw [if_pos hlm]
        simp [hlm, hc]
      · rw [if_neg hlm]
        simp [hlm, hc, decide_eq_true_eq]

/-- C6 witness: the guard theorem applied at concrete inputs — a fixed-load
row with `sqm_per_socket = 0` and wattage 0 under the load-based method, and
a zero-area zone with custom fixtures. -/
theorem C6_division_guards_witness :
    (calculate_zone 0 liftRow "Load-based (W/m²)" 0 false [] none noLux).num_sockets = 0 ∧
    (calculate_zone 0 liftRow "Load-based (W/m²)" 0 false [] none noLux).num_lights = 0 ∧
    (calculate_zone 0 residentialRow "Lux-based (lumens)" 15 true [⟨15, 2⟩] none noLux).light_w_m2 = 0 :=
  ⟨(C6_division_guards 0 liftRow "Load-based (W/m²)" 0 false [] none noLux).1 (by decide),
   (C6_division_guards 0 liftRow "Load-based (W/m²)" 0 false [] none noLux).2.1
     (by simp) rfl (by norm_num),
   (C6_division_guards 0 residentialRow "Lux-based (lumens)" 15 true [⟨15, 2⟩] none noLux).2.2.1
     rfl (List.cons_ne_nil _ _) rfl⟩

/-- C6 counterexample: calling `calculate_zone` under the lux-based method
with a maintenance factor of 0 executes the unguarded division
`required_lumens / (lumens_per_fixture * mf * uf)` with a zero denominator —
in the Python source this raises `ZeroDivisionError`, so the function is not
free of divide-by-zero errors as claimed. -/
theorem C6_counterexample :
    zone_div_by_zero "Lux-based (lumens)" false [] ⟨none, none, some 0, none⟩ = true := by
  simp +decide [zone_div_by_zero]

/-- C3: `auto_cable_size` scans the cable table in ascending cross-section
order and returns the label of the first entry whose rated current meets the
requested current and whose voltage drop (single-phase `mv*I*L/1000`,
three-phase additionally times √3) stays within
`voltage * max_vd_pct / 100`; when no entry qualifies it returns the
`">50mm² (custom)"` sentinel instead of raising. -/
theorem C3_auto_cable_size (current length voltage : ℝ) (phase : ℤ) (max_vd_pct : ℝ) :
    List.Chain' (· < ·) (CABLE_CURRENT.map (fun p => label_mm2 p.1)) ∧
    (((∀ p ∈ CABLE_CURRENT, ¬ cable_ok current length voltage phase max_vd_pct p) ∧
        auto_cable_size current length voltage phase max_vd_pct = ">50mm² (custom)") ∨
      (∃ l1 x l2, CABLE_CURRENT = l1 ++ x :: l2 ∧
        cable_ok current length voltage phase max_vd_pct x ∧
        (∀ q ∈ l1, ¬ cable_ok current length voltage phase max_vd_pct q) ∧
        auto_cable_size current length voltage phase max_vd_pct = x.1 ∧
        current ≤ (x.2 : ℝ))) := by
  classical
  constructor
  · norm_num [CABLE_CURRENT, label_mm2, List.chain'_cons]
  · rcases filter_head_first
        (fun p => decide (cable_ok current length voltage phase max_vd_pct p))
        CABLE_CURRENT with ⟨h1, h2⟩ | ⟨l1, x, l2, heq, hx, hpre, hh⟩
    · refine Or.inl ⟨fun p hp => by simpa using h1 p hp, ?_⟩
      simp only [auto_cable_size]
      rw [h2]
    · have hok : cable_ok current length voltage phase max_vd_pct x := by simpa using hx
      refine Or.inr ⟨l1, x, l2, heq, hok, fun q hq => by simpa using hpre q hq, ?_, hok.1⟩
      simp only [auto_cable_size]
      rw [hh]

/-- C9: `recommend_trunking` divides the total cable cross-section by the
0.45 fill ratio and returns the first (hence, the sizes being in ascending
area order, the smallest) standard trunking size whose area meets the
requirement; when even the largest size is insufficient it returns the
`">300x150 mm (custom)"` sentinel instead of raising. -/
theorem C9_recommend_trunking_spec (total : ℚ) :
    List.Chain' (· < ·) (TRUNKING_SIZES.map (fun p => p.1 * p.2)) ∧
    ((∃ l1 x l2, TRUNKING_SIZES = l1 ++ x :: l2 ∧
        total / 0.45 ≤ ((x.1 * x.2 : ℕ) : ℚ) ∧
        (∀ q ∈ l1, ((q.1 * q.2 : ℕ) : ℚ) < total / 0.45) ∧
        recommend_trunking total
          = (toString x.1 ++ " x " ++ toString x.2 ++ " mm",
             some ((x.1 * x.2 : ℕ) : ℚ), total / 0.45)) ∨
      ((∀ p ∈ TRUNKING_SIZES, ((p.1 * p.2 : ℕ) : ℚ) < total / 0.45) ∧
        recommend_trunking total = (">300x150 mm (custom)", none, total / 0.45))) := by
  constructor
  · norm_num [TRUNKING_SIZES, List.chain'_cons]
  · rcases find_first
        (fun p => decide (total / 0.45 ≤ ((p.1 * p.2 : ℕ) : ℚ)))
        TRUNKING_SIZES with ⟨h1, h2⟩ | ⟨l1, x, l2, heq, hx, hpre, hh⟩
    · refine Or.inr ⟨?_, ?_⟩
      · intro p hp
        have hfp := h1 p hp
        simp only [decide_eq_false_iff_not, not_le] at hfp
        exact hfp
      · simp only [recommend_trunking]
        rw [h2]
    · refine Or.inl ⟨l1, x, l2, heq, by simpa using hx, ?_, ?_⟩
      · intro q hq
        have hfq := hpre q hq
        simp only [decide_eq_false_iff_not, not_le] at hfq
        exact hfq
      · simp only [recommend_trunking]
        rw [hh]

/-- C1 (amended): for a zone row with positive area and distance whose base
cable label is in the impedance table, the reported voltage-drop percentage is
`(mv * Ib * distance * √3 / 1000) / 400 * 100` with the line current computed
from the RAW connected load through the literal 1.732,
`Ib = totalPowerKw * 1000 / (1.732 * 400 * 0.85)` — not from the
demand-adjusted power `totalPowerKw * 0.8` through √3 as the claim states. -/
theorem C1_report_vd_formula (area total_kw dist : ℚ) (cable_str : String) (mv : ℚ)
    (h1 : 0 < area) (h2 : 0 < dist)
    (h3 : CABLE_MV_A_M.lookup (base_cable_size cable_str) = some mv) :
    (report_vd area total_kw dist cable_str).vd_pct
      = ((mv : ℝ) * (((total_kw : ℝ) * 1000) / (1.732 * 400 * 0.85)) * (dist : ℝ) * sqrt3
          / 1000) / 400 * 100 := by
  have hmv : 0 < mv := cable_mv_pos h3
  simp only [report_vd, h3, Option.getD_some, Option.isSome_some]
  rw [if_pos ⟨h1, trivial, h2⟩, if_pos hmv]

/-- C1 witness: the amended formula evaluated on a concrete residential-style
row (area 100 m², 6 kW, 30 m, cable `2.5mm² 3C` with impedance 18 mV/A/m). -/
theorem C1_report_vd_witness :
    (report_vd 100 6 30 "2.5mm² 3C").vd_pct
      = (((18 : ℚ) : ℝ) * ((((6 : ℚ) : ℝ) * 1000) / (1.732 * 400 * 0.85)) * ((30 : ℚ) : ℝ)
          * sqrt3 / 1000) / 400 * 100 :=
  C1_report_vd_formula 100 6 30 "2.5mm² 3C" 18 (by norm_num) (by norm_num)
    (by simp +decide [List.lookup, CABLE_MV_A_M, base_cable_size]; norm_num)

/-- C1 counterexample: on the same concrete row the voltage-drop percentage
computed by the code differs from the one claimed in the specification — the
code uses the raw load and the 1.732 literal, giving an irrational value
strictly above 2 %, while the claimed demand-adjusted formula (whose √3
factors cancel) gives the rational 162/85 ≈ 1.906 %. -/
theorem C1_counterexample :
    (report_vd 100 6 30 "2.5mm² 3C").vd_pct ≠ spec_vd_pct 6 18 30 := by
  have hlook : CABLE_MV_A_M.lookup (base_cable_size "2.5mm² 3C") = some 18 := by
    simp +decide [List.lookup, CABLE_MV_A_M, base_cable_size]
    norm_num
  have hsq : sqrt3 ^ 2 = 3 := Real.sq_sqrt (by norm_num)
  have h0 : (0 : ℝ) ≤ sqrt3 := Real.sqrt_nonneg 3
  have h17 : (1.7 : ℝ) < sqrt3 := by nlinarith
  have h18 : sqrt3 < 1.8 := by nlinarith
  have hpos : (0 : ℝ) < sqrt3 := by linarith
  have hL : (report_vd 100 6 30 "2.5mm² 3C").vd_pct
      = (((18 : ℚ) : ℝ) * ((((6 : ℚ) : ℝ) * 1000) / (1.732 * 400 * 0.85)) * ((30 : ℚ) : ℝ)
          * sqrt3 / 1000) / 400 * 100 := by
    simp only [report_vd, hlook, Option.getD_some, Option.isSome_some]
    rw [if_pos ⟨by norm_num, trivial, by norm_num⟩, if_pos (by norm_num : (0 : ℚ) < 18)]
  have hR : spec_vd_pct 6 18 30 = 162 / 85 := by
    unfold spec_vd_pct
    push_cast
    field_simp
    ring
  rw [hL, hR]
  intro heq
  push_cast at heq
  norm_num at heq
  nlinarith [heq, h17]
